import Mathlib

/-!
Shallow embedding of the selection pipeline of `thepaper` (Go), covering
`ai/analyzer.go`, `feeds/sources.go` and the recency filter of `main.go`.

Modelling conventions:
* Go machine floats (`float64` relevance scores) are modelled as exact
  rationals `ℚ`.  The only float computation in scope is the duplicate-topic
  ratio test `float64(c)/float64(s) > 0.4`; for the small integer counts `c`
  and `s` arising from title tokenization, the float comparison agrees with
  the exact rational comparison `c/s > 2/5` (the float64 nearest to `0.4`
  equals the rounding of `2/5`, and `c/s` with small `s` is never strictly
  between the two), which under the guard `s > 0` is the integer comparison
  `5c > 2s`; so the rational/integer model is faithful.
* `time.Time` is modelled as `Int`, in hours; the Go zero `Time`
  (`Time.IsZero`) is modelled as the integer `0`.
* The Gemini oracle is an external collaborator: each call site receives an
  attempt-indexed response function `Nat → Except String String` (error from
  the transport, or the text of the response).  `strconv.ParseFloat` is
  modelled on plain decimal numerals (optional sign, digits, optional
  fractional part), which covers the numeric responses the scorer expects;
  other strings fail to parse, as in Go.
* `time.Sleep` backoffs in `retryWithBackoff` are recorded in an explicit
  list of slept durations (in seconds); the per-call rate limiter
  (`Analyzer.rateLimit`) has no claim about it and is not modelled.
* `sort.Slice` is not a stable sort (Go documents this, and its pdqsort
  implementation reorders equal elements for slices longer than 12), so the
  sorting step is embedded relationally by its contract `sortSliceContract`:
  the output is a permutation of the input that is sorted by the comparator.
-/

namespace ThePaper

/-- `models.Article` from `models/types.go`.  `published : Int` is the
publication instant in hours, `0` playing the role of Go's zero `Time`. -/
structure Article where
  title : String
  description : String
  link : String
  published : Int
  source : String
  content : String
deriving DecidableEq

/-- `models.AnalyzedArticle`: an `Article` plus the analysis fields written by
`ai/analyzer.go` (`RelevanceScore`, `Summary`, `Selected`, `Tags`,
`Category`). -/
structure AnalyzedArticle where
  article : Article
  relevanceScore : ℚ
  summary : String
  selected : Bool
  tags : List String
  category : String
deriving DecidableEq

/-- Models Go `strings.TrimSpace` on the ASCII strings in scope: strip
leading and trailing whitespace.  (Defined on the character list so that it
evaluates inside the kernel.) -/
def goTrim (s : String) : String :=
  String.mk
    ((s.data.dropWhile Char.isWhitespace).reverse.dropWhile
      Char.isWhitespace).reverse

/-- Models Go `strings.ToLower` on the ASCII titles in scope. -/
def goLower (s : String) : String := String.mk (s.data.map Char.toLower)

/-- Models Go `strings.HasPrefix s pre`. -/
def goHasPrefix (s pre : String) : Bool := pre.data.isPrefixOf s.data

/-- Models Go `s[n:]` / `strings.TrimPrefix` residue: drop the first `n`
characters. -/
def goDrop (s : String) (n : Nat) : String := String.mk (s.data.drop n)

/-- Splitting on a single-character separator, as Go `strings.Split` does
for the separators `"\n"` and `","` used by the tag parser: every
occurrence splits, empty pieces are kept. -/
def splitOnChar (sep : Char) : List Char → List (List Char)
  | [] => [[]]
  | c :: rest =>
    if c == sep then [] :: splitOnChar sep rest
    else
      match splitOnChar sep rest with
      | [] => [[c]]
      | w :: ws => (c :: w) :: ws

/-- Go `strings.Split s (String.singleton sep)` on strings. -/
def goSplit (s : String) (sep : Char) : List String :=
  (splitOnChar sep s.data).map String.mk

/-- Helper for `containsSubstr`: does `pat` occur as a contiguous run of
`l`? -/
def infixAux (pat : List Char) : List Char → Bool
  | [] => pat.isPrefixOf []
  | c :: rest => pat.isPrefixOf (c :: rest) || infixAux pat rest

/-- Models Go `strings.Contains s pat`. -/
def containsSubstr (s pat : String) : Bool :=
  infixAux pat.data s.data

/-- The retry-eligibility test of `retryWithBackoff` (`ai/analyzer.go:72`):
an error is a rate-limit (transient) error when its message contains
`RESOURCE_EXHAUSTED` or `429`. -/
def isRateLimitError (e : String) : Bool :=
  containsSubstr e "RESOURCE_EXHAUSTED" || containsSubstr e "429"

/-- The loop body of `retryWithBackoff` (`ai/analyzer.go:55-78`).
`remaining` counts the attempts still allowed (Go runs attempts
`0..maxRetries`, i.e. `maxRetries+1` calls); `attempt` is the index of the
next attempt.  The second component collects the slept backoff durations in
seconds: before attempt `a ≥ 1` the Go code sleeps `2^(a-1)` seconds. -/
def retryLoop {α : Type} (fn : Nat → Except String α) :
    Nat → Nat → String → Except String α × List Nat
  | 0, _, lastErr => (Except.error ("max retries exceeded: " ++ lastErr), [])
  | remaining + 1, attempt, _lastErr =>
    let sleeps : List Nat := if attempt = 0 then [] else [2 ^ (attempt - 1)]
    match fn attempt with
    | Except.ok v => (Except.ok v, sleeps)
    | Except.error e =>
      if isRateLimitError e then
        let r := retryLoop fn remaining (attempt + 1) e
        (r.1, sleeps ++ r.2)
      else (Except.error e, sleeps)

/-- `retryWithBackoff ctx maxRetries fn` from `ai/analyzer.go:55-78`,
returning the final result together with the list of backoff sleeps
performed.  Go's initial `lastErr` is the nil error; it is only ever
rendered when the loop body never runs, which cannot happen for
`maxRetries : Nat`, so the seed string is immaterial. -/
def retryWithBackoff {α : Type} (maxRetries : Nat) (fn : Nat → Except String α) :
    Except String α × List Nat :=
  retryLoop fn (maxRetries + 1) 0 ""

/-- Value of a digit run, as in `strconv.ParseFloat`'s mantissa scan. -/
def digitsVal (l : List Char) : Nat :=
  l.foldl (fun a c => a * 10 + (c.toNat - 48)) 0

/-- Models `strconv.ParseFloat` on an unsigned plain decimal numeral:
digits with an optional single decimal point, at least one digit overall,
nothing else.  The value `int.frac` is the exact rational
`(int·10^k + frac) / 10^k`, written with `mkRat` so that it evaluates
inside the kernel. -/
def parseUnsignedDec (l : List Char) : Option ℚ :=
  let intPart := l.takeWhile Char.isDigit
  let rest := l.dropWhile Char.isDigit
  match rest with
  | [] => if intPart.isEmpty then none else some (digitsVal intPart)
  | '.' :: frac =>
    if frac.all Char.isDigit then
      if intPart.isEmpty && frac.isEmpty then none
      else some (mkRat (digitsVal intPart * 10 ^ frac.length + digitsVal frac)
        (10 ^ frac.length))
    else none
  | _ => none

/-- Models `strconv.ParseFloat s 64` (plain decimal forms): an optional sign
followed by an unsigned decimal numeral. -/
def parseGoFloat (s : String) : Option ℚ :=
  match s.data with
  | '-' :: rest => (parseUnsignedDec rest).map (fun q => -q)
  | '+' :: rest => parseUnsignedDec rest
  | l => parseUnsignedDec l

/-- One attempt of `scoreArticle`'s closure (`ai/analyzer.go:171-189`): a
transport error is wrapped as `failed to score article: ...`; a response
whose trimmed text does not parse as a number is the error
`invalid score format: ...`; otherwise the parsed score is produced. -/
def scoreAttempt (resp : Nat → Except String String) (attempt : Nat) :
    Except String ℚ :=
  match resp attempt with
  | Except.error e => Except.error ("failed to score article: " ++ e)
  | Except.ok text =>
    match parseGoFloat (goTrim text) with
    | none => Except.error ("invalid score format: " ++ goTrim text)
    | some q => Except.ok q

/-- `Analyzer.scoreArticle` (`ai/analyzer.go:156-195`): the scoring closure
run under `retryWithBackoff ctx 5`. -/
def scoreArticle (resp : Nat → Except String String) : Except String ℚ :=
  (retryWithBackoff 5 (scoreAttempt resp)).1

/-- The Gemini collaborator, seen from the pipeline: for each article, an
attempt-indexed response for each of the three call kinds (score, tags,
summary). -/
structure Oracle where
  scoreResp : Article → Nat → Except String String
  tagResp : Article → Nat → Except String String
  summaryResp : Article → Nat → Except String String

/-- The relevance score attached by `SelectAndSummarize`
(`ai/analyzer.go:89-103`): the result of `scoreArticle`, or `0` when
`scoreArticle` returns an error. -/
def articleScore (resp : Nat → Except String String) : ℚ :=
  match scoreArticle resp with
  | Except.error _ => 0
  | Except.ok q => q

/-- The scoring pass of `SelectAndSummarize` (`ai/analyzer.go:88-103`):
every input article is wrapped in an `AnalyzedArticle` with its score
attached; the remaining fields keep their Go zero values. -/
def scoreAll (o : Oracle) (articles : List Article) : List AnalyzedArticle :=
  articles.map fun a =>
    { article := a
      relevanceScore := articleScore (o.scoreResp a)
      summary := ""
      selected := false
      tags := []
      category := "" }

/-- Score-descending order of an analyzed list: the postcondition of sorting
with the comparator of `ai/analyzer.go:106-108`
(`analyzed[i].RelevanceScore > analyzed[j].RelevanceScore`). -/
def scoreDescSorted (l : List AnalyzedArticle) : Prop :=
  List.Pairwise (fun x y => y.relevanceScore ≤ x.relevanceScore) l

/-- The contract of Go `sort.Slice` with the score-descending comparator:
the output is a permutation of the input, sorted score-descending.
`sort.Slice` guarantees nothing more — in particular it is documented as
not stable. -/
def sortSliceContract (input output : List AnalyzedArticle) : Prop :=
  output.Perm input ∧ scoreDescSorted output

/-- The spec-side notion from C1: a stable score-descending sort — a sorted
permutation in which the articles carrying any fixed score appear in their
original input order. -/
def stableScoreSort (input output : List AnalyzedArticle) : Prop :=
  output.Perm input ∧ scoreDescSorted output ∧
    ∀ q : ℚ, output.filter (fun x => decide (x.relevanceScore = q)) =
      input.filter (fun x => decide (x.relevanceScore = q))

/-- Models Go `strings.Trim s "[]"`: strip leading and trailing `[` and `]`
characters. -/
def trimBrackets (s : String) : String :=
  String.mk (((s.data.dropWhile fun c => c = '[' || c = ']').reverse.dropWhile
    fun c => c = '[' || c = ']').reverse)

/-- The tag-list splitting of `ai/analyzer.go:274-279`: split on commas, trim
each piece, keep the non-empty pieces. -/
def parseTagList (tagStr : String) : List String :=
  ((goSplit tagStr ',').map goTrim).filter fun t => t != ""

/-- One line of the response scan of `extractTagsAndCategory`
(`ai/analyzer.go:267-281`): a `Category:` line replaces the category, a
`Tags:` line appends its tags, any other line is ignored.  The accumulator
is `(category, tags)`. -/
def parseTagsStep (acc : String × List String) (rawLine : String) :
    String × List String :=
  let line := goTrim rawLine
  if goHasPrefix line "Category:" then (goTrim (goDrop line 9), acc.2)
  else if goHasPrefix line "Tags:" then
    (acc.1, acc.2 ++ parseTagList (trimBrackets (goTrim (goDrop line 5))))
  else acc

/-- The response parsing and defaulting of `extractTagsAndCategory`
(`ai/analyzer.go:262-290`): scan the lines, then default an empty category
to `General` and an empty tag list to `["tech"]`.  Returns `(tags,
category)` in the Go result order. -/
def parseTagsResponse (text : String) : List String × String :=
  let res := (goSplit text '\n').foldl parseTagsStep ("", [])
  (if res.2 = [] then ["tech"] else res.2,
   if res.1 = "" then "General" else res.1)

/-- One attempt of `extractTagsAndCategory`'s closure
(`ai/analyzer.go:244-256`): a transport error is wrapped as
`failed to extract tags: ...`; otherwise the trimmed response text is
kept. -/
def tagAttempt (resp : Nat → Except String String) (attempt : Nat) :
    Except String String :=
  match resp attempt with
  | Except.error e => Except.error ("failed to extract tags: " ++ e)
  | Except.ok text => Except.ok (goTrim text)

/-- `Analyzer.extractTagsAndCategory` (`ai/analyzer.go:230-291`): the call
under `retryWithBackoff ctx 5`, then the line scan with defaults. -/
def extractTagsAndCategory (resp : Nat → Except String String) :
    Except String (List String × String) :=
  match (retryWithBackoff 5 (tagAttempt resp)).1 with
  | Except.error e => Except.error e
  | Except.ok text => Except.ok (parseTagsResponse text)

/-- How `SelectAndSummarize` consumes one `extractTagsAndCategory` result
(`ai/analyzer.go:117-128`): on error the article gets an **empty** tag slice
and category `General`; on success it gets the returned tags and
category. -/
def applyExtract (res : Except String (List String × String))
    (a : AnalyzedArticle) : AnalyzedArticle :=
  match res with
  | Except.error _ => { a with tags := [], category := "General" }
  | Except.ok tc => { a with tags := tc.1, category := tc.2 }

/-- `candidateCount` from `ai/analyzer.go:111-114`: `topN*3`, capped at the
number of articles. -/
def candidateCount (topN total : Nat) : Nat :=
  if total < topN * 3 then total else topN * 3

/-- The extraction pass of `SelectAndSummarize` (`ai/analyzer.go:110-128`):
tags and category are filled in for the first `candidateCount` entries of
the score-sorted list; later entries keep their zero values. -/
def extractPhase (o : Oracle) (topN : Nat) (sorted : List AnalyzedArticle) :
    List AnalyzedArticle :=
  sorted.mapIdx fun i a =>
    if i < candidateCount topN sorted.length then
      applyExtract (extractTagsAndCategory (o.tagResp a.article)) a
    else a

/-- The fixed stop-word set of `isDuplicateTopic` (`ai/analyzer.go:340-346`). -/
def insignificantWords : List String :=
  ["the", "a", "an", "and", "or", "but", "in", "on", "at", "to",
   "for", "of", "with", "by", "from", "is", "are", "was", "were", "be",
   "how", "why", "what", "when", "where"]

/-- Helper for `goFields`: split on whitespace runs, accumulating the
current (reversed) word. -/
def fieldsAux : List Char → List Char → List (List Char)
  | [], [] => []
  | [], cur => [cur.reverse]
  | c :: rest, cur =>
    if c.isWhitespace then
      if cur.isEmpty then fieldsAux rest []
      else cur.reverse :: fieldsAux rest []
    else fieldsAux rest (c :: cur)

/-- Models Go `strings.Fields`: the whitespace-separated words of a
string. -/
def goFields (s : String) : List String := (fieldsAux s.data []).map String.mk

/-- A word counts in `isDuplicateTopic` when it is longer than two
characters and not a stop word (`ai/analyzer.go:349,353,367`). -/
def significantWord (w : String) : Bool :=
  decide (2 < w.length) && !(insignificantWords.contains w)

/-- The word-similarity test of `ai/analyzer.go:357`: equal, or one is a
prefix of the other. -/
def wordsMatch (w sw : String) : Bool :=
  w == sw || goHasPrefix w sw || goHasPrefix sw w

/-- `commonWords` of `ai/analyzer.go:339-362`: the number of significant
candidate words matching at least one significant word of the selected
title (the inner loop breaks at the first match, so each candidate word is
counted at most once). -/
def commonWordCount (titleWords selectedWords : List String) : Nat :=
  (titleWords.filter fun w =>
    significantWord w && selectedWords.any fun sw =>
      significantWord sw && wordsMatch w sw).length

/-- `significantTitleWords` of `ai/analyzer.go:365-370`. -/
def significantCount (ws : List String) : Nat :=
  (ws.filter significantWord).length

/-- `Analyzer.isDuplicateTopic` (`ai/analyzer.go:330-378`).  The Go ratio
test `significantTitleWords > 0 &&
float64(commonWords)/float64(significantTitleWords) > 0.4` is rendered as
the integer comparison `0 < s && 2*s < 5*c`: under the guard `0 < s` the
exact comparison `c/s > 2/5` is `5c > 2s`, and the float64 comparison
agrees with the exact one for these magnitudes (see the header note on
floats).  The theorem for C5 relates this to the ratio formulation. -/
def isDuplicateTopic (title : String) (selectedTopics : List String) : Bool :=
  let titleWords := goFields (goLower title)
  selectedTopics.any fun sel =>
    let selectedWords := goFields (goLower sel)
    let c := commonWordCount titleWords selectedWords
    let s := significantCount titleWords
    decide (0 < s) && decide (2 * s < 5 * c)

/-- The per-category tally of `selectWithDiversity`: the Go `categoryCount`
map is incremented exactly when an article is appended to `selected`, so its
value at `cat` is always the number of selected articles of that
category. -/
def categoryCountIn (selected : List AnalyzedArticle) (cat : String) : Nat :=
  (selected.filter fun a => a.category == cat).length

/-- `maxPerCategory` from `ai/analyzer.go:297`. -/
def maxPerCategory : Nat := 2

/-- The greedy loop of `selectWithDiversity` (`ai/analyzer.go:302-324`):
stop at `topN` accepted items; skip an article whose category is at the cap
or whose title duplicates a selected topic; otherwise accept it. -/
def selectLoop (topN : Nat) :
    List AnalyzedArticle → List AnalyzedArticle → List String →
      List AnalyzedArticle
  | [], selected, _ => selected
  | a :: rest, selected, topics =>
    if topN ≤ selected.length then selected
    else if maxPerCategory ≤ categoryCountIn selected a.category then
      selectLoop topN rest selected topics
    else if isDuplicateTopic a.article.title topics then
      selectLoop topN rest selected topics
    else selectLoop topN rest (selected ++ [a]) (topics ++ [a.article.title])

/-- `Analyzer.selectWithDiversity` (`ai/analyzer.go:294-327`). -/
def selectWithDiversity (analyzed : List AnalyzedArticle) (topN : Nat) :
    List AnalyzedArticle :=
  selectLoop topN analyzed [] []

/-- One attempt of `summarizeArticle`'s closure (`ai/analyzer.go:209-221`). -/
def summaryAttempt (resp : Nat → Except String String) (attempt : Nat) :
    Except String String :=
  match resp attempt with
  | Except.error e => Except.error ("failed to summarize article: " ++ e)
  | Except.ok text => Except.ok (goTrim text)

/-- `Analyzer.summarizeArticle` (`ai/analyzer.go:198-227`). -/
def summarizeArticle (resp : Nat → Except String String) : Except String String :=
  (retryWithBackoff 5 (summaryAttempt resp)).1

/-- The summarizing pass of `SelectAndSummarize` (`ai/analyzer.go:140-150`):
each selected article is marked selected and given its summary, with the
fixed fallback `Summary unavailable.` on failure. -/
def summarizePhase (o : Oracle) (selected : List AnalyzedArticle) :
    List AnalyzedArticle :=
  selected.map fun a =>
    { a with
      selected := true
      summary :=
        match summarizeArticle (o.summaryResp a.article) with
        | Except.error _ => "Summary unavailable."
        | Except.ok s => s }

/-- `Analyzer.SelectAndSummarize` (`ai/analyzer.go:81-153`), as a relation
because the `sort.Slice` step is embedded by its contract: an empty input is
the error `no articles to analyze`; otherwise the result is the sorted
scored list pushed through extraction, diverse selection and
summarization. -/
def SelectAndSummarizeRel (o : Oracle) (articles : List Article) (topN : Nat)
    (result : Except String (List AnalyzedArticle)) : Prop :=
  if articles = [] then result = Except.error "no articles to analyze"
  else ∃ sorted, sortSliceContract (scoreAll o articles) sorted ∧
    result = Except.ok
      (summarizePhase o (selectWithDiversity (extractPhase o topN sorted) topN))

/-- The cutoff of the recency filter (`main.go:85`):
`time.Now().Add(-24*time.Hour)`, in hours. -/
def recencyCutoff (now : Int) : Int := now - 24

/-- The keep-predicate of the recency filter (`main.go:88`):
`article.Published.After(cutoff) || article.Published.IsZero()`. -/
def recencyKeep (now : Int) (a : Article) : Bool :=
  decide (recencyCutoff now < a.published) || decide (a.published = 0)

/-- The recency filter loop of `main.go:84-93`. -/
def recencyFilter (now : Int) (articles : List Article) : List Article :=
  articles.filter (recencyKeep now)

/-- Spec-side reading of C8's "within the trailing 24-hour window": at most
24 hours before `now`, and not in the future. -/
def withinTrailingWindow (now pub : Int) : Prop :=
  now - 24 < pub ∧ pub ≤ now

/-- The articles contributed by the successful fetch tasks, in task order
(`feeds/sources.go:186-190`; the channel order of the real code is
nondeterministic, which none of the claims depend on). -/
def successArticles (results : List (Except String (List Article))) :
    List Article :=
  (results.filterMap fun r =>
    match r with
    | Except.ok l => some l
    | Except.error _ => none).flatten

/-- The per-source errors collected by `FetchAll`
(`feeds/sources.go:193-196`). -/
def fetchErrors (results : List (Except String (List Article))) : List String :=
  results.filterMap fun r =>
    match r with
    | Except.error e => some e
    | Except.ok _ => none

/-- Helper for `deduplicateArticles`: the Go `seen` map is the set of links
already emitted. -/
def dedupAux : List Article → List String → List Article
  | [], _ => []
  | a :: rest, seen =>
    if seen.contains a.link then dedupAux rest seen
    else a :: dedupAux rest (a.link :: seen)

/-- `deduplicateArticles` (`feeds/sources.go:250-262`): keep the first
occurrence of each link. -/
def deduplicateArticles (articles : List Article) : List Article :=
  dedupAux articles []

/-- `Fetcher.FetchAll` (`feeds/sources.go:163-211`) on the per-source
outcomes: fail with the aggregated error list when there is at least one
error **and** the successful sources contributed no articles; otherwise
return the deduplicated union. -/
def FetchAll (results : List (Except String (List Article))) :
    Except (List String) (List Article) :=
  if fetchErrors results ≠ [] ∧ successArticles results = [] then
    Except.error (fetchErrors results)
  else Except.ok (deduplicateArticles (successArticles results))

/-- Decidable equality for `Except`, used to evaluate the embedding on
concrete runs. -/
def exceptDecEq {ε α : Type} [DecidableEq ε] [DecidableEq α] :
    (x y : Except ε α) → Decidable (x = y)
  | Except.error e, Except.error f =>
    if h : e = f then isTrue (by rw [h])
    else isFalse (fun hc => h (Except.error.inj hc))
  | Except.error _, Except.ok _ => isFalse (fun hc => Except.noConfusion hc)
  | Except.ok _, Except.error _ => isFalse (fun hc => Except.noConfusion hc)
  | Except.ok a, Except.ok b =>
    if h : a = b then isTrue (by rw [h])
    else isFalse (fun hc => h (Except.ok.inj hc))

instance {ε α : Type} [DecidableEq ε] [DecidableEq α] :
    DecidableEq (Except ε α) := exceptDecEq

/-- A concrete article with the given title (also used as the link) and
publication instant; the other fields are empty. -/
def mkArticle (t : String) (pub : Int) : Article :=
  { title := t, description := "", link := t, published := pub, source := "",
    content := "" }

/-- A concrete analyzed article with the given title and score, all other
fields at their Go zero values. -/
def mkAnalyzed (t : String) (q : ℚ) : AnalyzedArticle :=
  { article := mkArticle t 0, relevanceScore := q, summary := "",
    selected := false, tags := [], category := "" }

/-- A 13-article scored batch (scores 3,2,5,1,1,5,1,3,5,1,5,2,1 in fetch
order).  Go's `sort.Slice` dispatches slices longer than 12 to pdqsort. -/
def input13 : List AnalyzedArticle :=
  [mkAnalyzed "a0" 3, mkAnalyzed "a1" 2, mkAnalyzed "a2" 5, mkAnalyzed "a3" 1,
   mkAnalyzed "a4" 1, mkAnalyzed "a5" 5, mkAnalyzed "a6" 1, mkAnalyzed "a7" 3,
   mkAnalyzed "a8" 5, mkAnalyzed "a9" 1, mkAnalyzed "a10" 5, mkAnalyzed "a11" 2,
   mkAnalyzed "a12" 1]

/-- The order in which Go's `sort.Slice` (pdqsort, as in Go 1.19-1.24)
actually emits `input13` under the score-descending comparator of
`ai/analyzer.go:106-108`: the four score-5 articles come out as
a8,a2,a10,a5 although they were fetched as a2,a5,a8,a10, and the score-1
articles come out as a6,a9,a4,a3,a12 although fetched as a3,a4,a6,a9,a12. -/
def output13 : List AnalyzedArticle :=
  [mkAnalyzed "a8" 5, mkAnalyzed "a2" 5, mkAnalyzed "a10" 5, mkAnalyzed "a5" 5,
   mkAnalyzed "a0" 3, mkAnalyzed "a7" 3, mkAnalyzed "a1" 2, mkAnalyzed "a11" 2,
   mkAnalyzed "a6" 1, mkAnalyzed "a9" 1, mkAnalyzed "a4" 1, mkAnalyzed "a3" 1,
   mkAnalyzed "a12" 1]

/-- C1: the claim asks for a stable score-descending sort (equal scores in
original fetch order), but `SelectAndSummarize` sorts with `sort.Slice`,
which only guarantees `sortSliceContract`: `output13` — the order Go's
pdqsort actually produces for `input13` — satisfies the contract yet
violates the stable tie-break (witnessed at score 5). -/
theorem C1_sort_slice_not_stable :
    sortSliceContract input13 output13 ∧ ¬ stableScoreSort input13 output13 := by
  refine ⟨⟨by decide, ?_⟩, fun h => absurd (h.2.2 5) (by decide)⟩
  unfold scoreDescSorted
  decide

/-- C8 counterexample: an article stamped one hour in the future is kept by
the recency filter of `main.go:84-93` although its timestamp is neither
within the trailing 24-hour window nor zero. -/
theorem C8_counterexample :
    recencyKeep 1000 (mkArticle "future" 1001) = true ∧
    ¬ (withinTrailingWindow 1000 (mkArticle "future" 1001).published ∨
      (mkArticle "future" 1001).published = 0) := by
  refine ⟨by decide, ?_⟩
  unfold withinTrailingWindow mkArticle
  decide

/-- C8 (amended): the filter keeps an article exactly when its timestamp is
within the trailing 24-hour window, **or lies in the future** (the code has
no upper bound: everything after `now - 24h` passes), or is unset/zero; in
particular an article published 25 hours ago is excluded and articles with
a zero timestamp or published 1 hour ago are included. -/
theorem C8_recency_amended :
    (∀ (now : Int) (a : Article),
      recencyKeep now a = true ↔
        (withinTrailingWindow now a.published ∨ now < a.published ∨
          a.published = 0)) ∧
    recencyKeep 1000 (mkArticle "old" 975) = false ∧
    recencyKeep 1000 (mkArticle "undated" 0) = true ∧
    recencyKeep 1000 (mkArticle "fresh" 999) = true := by
  refine ⟨?_, by decide, by decide, by decide⟩
  intro now a
  simp only [recencyKeep, recencyCutoff, withinTrailingWindow, Bool.or_eq_true,
    decide_eq_true_eq]
  omega

/-- C9: `SelectAndSummarize` rejects an empty article list with the error
`no articles to analyze` (`ai/analyzer.go:82-84`); no successful result —
in particular not the empty selection — is possible on empty input. -/
theorem C9_empty_input_rejected (o : Oracle) (topN : Nat) :
    SelectAndSummarizeRel o [] topN (Except.error "no articles to analyze") ∧
    (∀ r, SelectAndSummarizeRel o [] topN r →
      r = Except.error "no articles to analyze") ∧
    ¬ SelectAndSummarizeRel o [] topN (Except.ok []) := by
  refine ⟨by simp [SelectAndSummarizeRel], ?_, ?_⟩
  · intro r h
    simpa [SelectAndSummarizeRel] using h
  · intro h
    simp [SelectAndSummarizeRel] at h

/-- C9 witness: the rejection at a concrete oracle and `topN = 8`, and the
uniqueness clause applied at the concrete result it allows. -/
theorem C9_witness :
    SelectAndSummarizeRel
      { scoreResp := fun _ _ => Except.ok "5",
        tagResp := fun _ _ => Except.ok "",
        summaryResp := fun _ _ => Except.ok "" } [] 8
      (Except.error "no articles to analyze") ∧
    (Except.error "no articles to analyze" :
        Except String (List AnalyzedArticle)) =
      Except.error "no articles to analyze" :=
  ⟨(C9_empty_input_rejected
      { scoreResp := fun _ _ => Except.ok "5",
        tagResp := fun _ _ => Except.ok "",
        summaryResp := fun _ _ => Except.ok "" } 8).1,
   (C9_empty_input_rejected
      { scoreResp := fun _ _ => Except.ok "5",
        tagResp := fun _ _ => Except.ok "",
        summaryResp := fun _ _ => Except.ok "" } 8).2.1
     (Except.error "no articles to analyze")
     (C9_empty_input_rejected
        { scoreResp := fun _ _ => Except.ok "5",
          tagResp := fun _ _ => Except.ok "",
          summaryResp := fun _ _ => Except.ok "" } 8).1⟩

/-- C10: when every token of the candidate title is insignificant (length
at most 2 or a stop word), the significant-token count is 0, the guarded
ratio test of `ai/analyzer.go:372` is skipped for every selected title, and
the candidate is never flagged as a duplicate. -/
theorem C10_insignificant_title_never_duplicate (title : String)
    (selectedTopics : List String)
    (h : significantCount (goFields (goLower title)) = 0) :
    isDuplicateTopic title selectedTopics = false := by
  unfold isDuplicateTopic
  simp [h]

/-- C10 witness: `a to of it` has no significant token and is not flagged
against a selected title sharing none of its words or any of them. -/
theorem C10_witness :
    significantCount (goFields (goLower "a to of it")) = 0 ∧
    isDuplicateTopic "a to of it" ["rust released today", "a to of it"] = false :=
  ⟨by decide,
   C10_insignificant_title_never_duplicate "a to of it"
     ["rust released today", "a to of it"] (by decide)⟩

/-- C4 counterexample: with one source succeeding (with an empty feed) and
one source failing, `FetchAll` returns the fatal aggregated error set even
though not every source failed, because `feeds/sources.go:201` only checks
that the merged article list is empty. -/
theorem C4_counterexample :
    FetchAll [Except.ok [], Except.error "boom"] = Except.error ["boom"] ∧
    ¬ (∀ r ∈ ([Except.ok [], Except.error "boom"] :
        List (Except String (List Article))), ∃ e, r = Except.error e) := by
  refine ⟨by decide, ?_⟩
  intro h
  rcases h (Except.ok []) (by simp) with ⟨e, he⟩
  exact Except.noConfusion he

/-- C4 (amended): `FetchAll` fails exactly when at least one source failed
**and** the successful sources contributed no articles (so also when the
only successes are empty feeds); otherwise it returns the deduplicated
union of the successful sources' items even if some sources failed. -/
theorem C4_fetch_amended (results : List (Except String (List Article))) :
    ((∃ errs, FetchAll results = Except.error errs) ↔
      (fetchErrors results ≠ [] ∧ successArticles results = [])) ∧
    ∀ arts, FetchAll results = Except.ok arts →
      arts = deduplicateArticles (successArticles results) := by
  unfold FetchAll
  by_cases hc : fetchErrors results ≠ [] ∧ successArticles results = []
  · rw [if_pos hc]
    exact ⟨⟨fun _ => hc, fun _ => ⟨_, rfl⟩⟩, fun arts h => Except.noConfusion h⟩
  · rw [if_neg hc]
    refine ⟨⟨?_, fun h => absurd h hc⟩, ?_⟩
    · rintro ⟨errs, he⟩
      exact Except.noConfusion he
    · intro arts h
      exact (Except.ok.inj h).symm

/-- C4 witness: one successful source carrying an article plus one failed
source yield the dedup of the successful items, not an error. -/
theorem C4_fetch_amended_witness :
    [mkArticle "w1" 0] =
      deduplicateArticles (successArticles
        [Except.ok [mkArticle "w1" 0], Except.error "down"]) :=
  (C4_fetch_amended [Except.ok [mkArticle "w1" 0], Except.error "down"]).2
    [mkArticle "w1" 0] (by decide)

/-- Both defaults of `parseTagsResponse` are applied after the line scan,
so a successful call never produces an empty tag list or category. -/
theorem parseTagsResponse_defaults (text : String) :
    (parseTagsResponse text).1 ≠ [] ∧ (parseTagsResponse text).2 ≠ "" := by
  unfold parseTagsResponse
  constructor
  · dsimp only
    split
    · simp
    · assumption
  · dsimp only
    split
    · simp
    · assumption

/-- C3 counterexample: a tags call failing with a transient error on all 6
attempts exhausts its retries, and `SelectAndSummarize` then assigns an
**empty** tag list together with category `General`
(`ai/analyzer.go:120-122`) — not the single sentinel tag `tech` claimed. -/
theorem C3_counterexample :
    extractTagsAndCategory (fun _ => Except.error "429") =
      Except.error "max retries exceeded: failed to extract tags: 429" ∧
    applyExtract (extractTagsAndCategory (fun _ => Except.error "429"))
      (mkAnalyzed "c3" 7) =
      { mkAnalyzed "c3" 7 with tags := [], category := "General" } ∧
    (applyExtract (extractTagsAndCategory (fun _ => Except.error "429"))
      (mkAnalyzed "c3" 7)).tags ≠ ["tech"] := by
  refine ⟨by decide, by decide, by decide⟩

/-- C3 (amended): a tags call that fails after its retries yields category
`General` with an **empty** tag list; the sentinel tag `tech` is the
default only of successful calls (every successful call yields a non-empty
tag list and category, `tech`/`General` when the response parses to
nothing, as for the markerless response shown); the item is not aborted —
the extraction pass returns as many articles as it receives. -/
theorem C3_extract_defaults_amended :
    (∀ (resp : Nat → Except String String) e (a : AnalyzedArticle),
      extractTagsAndCategory resp = Except.error e →
      applyExtract (extractTagsAndCategory resp) a =
        { a with tags := [], category := "General" }) ∧
    (∀ (resp : Nat → Except String String) tc,
      extractTagsAndCategory resp = Except.ok tc → tc.1 ≠ [] ∧ tc.2 ≠ "") ∧
    parseTagsResponse "no markers here" = (["tech"], "General") ∧
    (∀ (o : Oracle) (topN : Nat) (sorted : List AnalyzedArticle),
      (extractPhase o topN sorted).length = sorted.length) := by
  refine ⟨?_, ?_, by decide, ?_⟩
  · intro resp e a h
    rw [h]
    rfl
  · intro resp tc h
    unfold extractTagsAndCategory at h
    rcases hr : (retryWithBackoff 5 (tagAttempt resp)).1 with e | text
    · rw [hr] at h
      exact Except.noConfusion h
    · rw [hr] at h
      rw [← Except.ok.inj h]
      exact parseTagsResponse_defaults text
  · intro o topN sorted
    unfold extractPhase
    simp

/-- C3 witness: the amended defaults at a failing call and at a successful
structured response. -/
theorem C3_extract_defaults_witness :
    applyExtract (extractTagsAndCategory (fun _ => Except.error "no"))
      (mkAnalyzed "w2" 1) =
      { mkAnalyzed "w2" 1 with tags := [], category := "General" } ∧
    (["sql"], "Data").1 ≠ ([] : List String) :=
  ⟨C3_extract_defaults_amended.1 (fun _ => Except.error "no")
      "failed to extract tags: no" (mkAnalyzed "w2" 1) (by decide),
   (C3_extract_defaults_amended.2.1
      (fun _ => Except.ok "Category: Data\nTags: [sql]") (["sql"], "Data")
      (by decide)).1⟩

/-- Spec-side duplicate rule of C5, with the threshold as the rational
ratio of the claim text: more than 40% of the candidate's significant
tokens match (by equality or prefix in either direction) a significant
token of at least one already-selected title. -/
def dupTopicSpec (title : String) (selectedTopics : List String) : Prop :=
  ∃ sel ∈ selectedTopics,
    (2 : ℚ) / 5 <
      (commonWordCount (goFields (goLower title)) (goFields (goLower sel)) : ℚ) /
        (significantCount (goFields (goLower title)) : ℚ)

/-- For a positive denominator the ratio threshold is the integer
comparison used by the embedding. -/
theorem ratio_bridge (c s : ℕ) (hs : 0 < s) :
    ((2 : ℚ) / 5 < (c : ℚ) / (s : ℚ)) ↔ 2 * s < 5 * c := by
  rw [div_lt_div_iff₀ (by norm_num) (by exact_mod_cast hs), mul_comm (c : ℚ) 5]
  exact_mod_cast Iff.rfl

/-- C5: `isDuplicateTopic` decides exactly the ratio rule of the claim —
duplicate iff, for at least one already-selected title, strictly more than
40% of the candidate's significant tokens match a significant token of it —
and on the claim's examples it flags `Rust 1.75 Released` against
`Rust 1.75 Release Notes` but not against `Python 3.13 Released`. -/
theorem C5_duplicate_topic_rule :
    (∀ title selectedTopics,
      isDuplicateTopic title selectedTopics = true ↔
        dupTopicSpec title selectedTopics) ∧
    isDuplicateTopic "Rust 1.75 Released" ["Rust 1.75 Release Notes"] = true ∧
    isDuplicateTopic "Rust 1.75 Released" ["Python 3.13 Released"] = false := by
  refine ⟨?_, by decide, by decide⟩
  intro title selectedTopics
  simp only [isDuplicateTopic, dupTopicSpec]
  rw [List.any_eq_true]
  constructor
  · rintro ⟨sel, hsel, hP⟩
    simp only [Bool.and_eq_true, decide_eq_true_eq] at hP
    exact ⟨sel, hsel, (ratio_bridge _ _ hP.1).mpr hP.2⟩
  · rintro ⟨sel, hsel, hQ⟩
    refine ⟨sel, hsel, ?_⟩
    simp only [Bool.and_eq_true, decide_eq_true_eq]
    have hs : 0 < significantCount (goFields (goLower title)) := by
      by_contra hns
      have h0 : significantCount (goFields (goLower title)) = 0 := by omega
      rw [h0] at hQ
      simp only [Nat.cast_zero, div_zero] at hQ
      norm_num at hQ
    exact ⟨hs, (ratio_bridge _ _ hs).mp hQ⟩

/-- Appending one article changes the per-category tally only at that
article's category. -/
theorem categoryCountIn_append (selected : List AnalyzedArticle)
    (a : AnalyzedArticle) (cat : String) :
    categoryCountIn (selected ++ [a]) cat =
      categoryCountIn selected cat + (if a.category == cat then 1 else 0) := by
  unfold categoryCountIn
  rw [List.filter_append, List.length_append]
  congr 1
  by_cases h : a.category == cat
  · simp [h]
  · simp [h]

/-- The greedy loop of `selectWithDiversity` preserves the size bound and
the per-category cap. -/
theorem selectLoop_bounds (topN : Nat) :
    ∀ (rem selected : List AnalyzedArticle) (topics : List String),
      selected.length ≤ topN →
      (∀ cat, categoryCountIn selected cat ≤ maxPerCategory) →
      (selectLoop topN rem selected topics).length ≤ topN ∧
        ∀ cat, categoryCountIn (selectLoop topN rem selected topics) cat ≤
          maxPerCategory := by
  intro rem
  induction rem with
  | nil =>
    intro selected topics h1 h2
    exact ⟨h1, h2⟩
  | cons a rest ih =>
    intro selected topics h1 h2
    simp only [selectLoop]
    split_ifs with hb hcap hdup
    · exact ⟨h1, h2⟩
    · exact ih selected topics h1 h2
    · exact ih selected topics h1 h2
    · refine ih (selected ++ [a]) (topics ++ [a.article.title]) ?_ ?_
      · rw [List.length_append]
        simp only [List.length_singleton]
        omega
      · intro cat
        rw [categoryCountIn_append]
        by_cases hc : a.category == cat
        · have hcat : a.category = cat := beq_iff_eq.mp hc
          rw [if_pos hc, ← hcat]
          unfold maxPerCategory at hcap ⊢
          omega
        · rw [if_neg hc]
          have := h2 cat
          omega

/-- Five distinct-topic articles, all of category `A`. -/
def fiveCatA : List AnalyzedArticle :=
  [{ mkAnalyzed "alpha" 9 with category := "A" },
   { mkAnalyzed "beta" 8 with category := "A" },
   { mkAnalyzed "gamma" 7 with category := "A" },
   { mkAnalyzed "delta" 6 with category := "A" },
   { mkAnalyzed "epsilon" 5 with category := "A" }]

/-- C7: `selectWithDiversity` returns at most `topN` articles and at most
`maxPerCategory` (= 2) articles of any single category; and there is no
relaxation or backfill pass — on five same-category, distinct-topic
articles with `topN = 8` it stops at 2 articles, strictly fewer than
requested. -/
theorem C7_diversity_bounds :
    (∀ (analyzed : List AnalyzedArticle) (topN : Nat),
      (selectWithDiversity analyzed topN).length ≤ topN ∧
        ∀ cat, categoryCountIn (selectWithDiversity analyzed topN) cat ≤
          maxPerCategory) ∧
    (selectWithDiversity fiveCatA 8).length = 2 ∧
    (selectWithDiversity fiveCatA 8).length < 8 := by
  refine ⟨?_, by decide, by decide⟩
  intro analyzed topN
  exact selectLoop_bounds topN analyzed [] []
    (Nat.zero_le topN)
    (fun cat => by simp [categoryCountIn, maxPerCategory])

/-- A successful retry result always comes from some successful attempt of
the wrapped call. -/
theorem retryLoop_fst_ok {α : Type} (fn : Nat → Except String α) :
    ∀ (remaining attempt : Nat) (lastErr : String) (v : α),
      (retryLoop fn remaining attempt lastErr).1 = Except.ok v →
      ∃ n, fn n = Except.ok v := by
  intro remaining
  induction remaining with
  | zero =>
    intro attempt lastErr v h
    simp [retryLoop] at h
  | succ m ih =>
    intro attempt lastErr v h
    rcases hfa : fn attempt with e | w
    · simp only [retryLoop, hfa] at h
      split at h
      · exact ih (attempt + 1) e v h
      · simp at h
    · simp only [retryLoop, hfa] at h
      exact ⟨attempt, by rw [hfa, h]⟩

/-- `retryLoop_fst_ok`, phrased on `retryWithBackoff`. -/
theorem retryWithBackoff_fst_ok {α : Type} (maxRetries : Nat)
    (fn : Nat → Except String α) (v : α)
    (h : (retryWithBackoff maxRetries fn).1 = Except.ok v) :
    ∃ n, fn n = Except.ok v :=
  retryLoop_fst_ok fn (maxRetries + 1) 0 "" v h

/-- C2 counterexample: an oracle that answers `11` — a well-formed numeral
outside [0,10] — yields relevance score 11: `scoreArticle` performs no
range check or clamping, so the attached score escapes the claimed
range. -/
theorem C2_counterexample :
    (scoreAll
        { scoreResp := fun _ _ => Except.ok "11",
          tagResp := fun _ _ => Except.ok "",
          summaryResp := fun _ _ => Except.ok "" }
        [mkArticle "c2" 0]).map (fun a => a.relevanceScore) = [11] ∧
    ¬ ((11 : ℚ) ≤ 10) := by
  refine ⟨by decide, by decide⟩

/-- C2 (amended): the attached score is 0 on unrecoverable failure (parse
failure or retry exhaustion), and on success it is exactly the parsed
value of some oracle response — with no clamping — so it lies in [0,10]
precisely when the parseable oracle responses do. -/
theorem C2_score_amended (resp : Nat → Except String String) :
    (∀ e, scoreArticle resp = Except.error e → articleScore resp = 0) ∧
    (∀ q, scoreArticle resp = Except.ok q →
      articleScore resp = q ∧
        ∃ n t, resp n = Except.ok t ∧ parseGoFloat (goTrim t) = some q) ∧
    ((∀ n t q, resp n = Except.ok t → parseGoFloat (goTrim t) = some q →
        0 ≤ q ∧ q ≤ 10) →
      0 ≤ articleScore resp ∧ articleScore resp ≤ 10) := by
  have hok : ∀ q, scoreArticle resp = Except.ok q →
      ∃ n t, resp n = Except.ok t ∧ parseGoFloat (goTrim t) = some q := by
    intro q h
    rcases retryWithBackoff_fst_ok 5 (scoreAttempt resp) q h with ⟨n, hn⟩
    unfold scoreAttempt at hn
    rcases hr : resp n with e | t
    · rw [hr] at hn
      exact Except.noConfusion hn
    · rw [hr] at hn
      dsimp only at hn
      rcases hp : parseGoFloat (goTrim t) with _ | q2
      · rw [hp] at hn
        exact Except.noConfusion hn
      · rw [hp] at hn
        exact ⟨n, t, hr, by rw [hp, Except.ok.inj hn]⟩
  refine ⟨?_, ?_, ?_⟩
  · intro e h
    unfold articleScore
    rw [h]
  · intro q h
    refine ⟨?_, hok q h⟩
    unfold articleScore
    rw [h]
  · intro hrange
    rcases hs : scoreArticle resp with e | q
    · unfold articleScore
      rw [hs]
      norm_num
    · have h2 : articleScore resp = q := by
        unfold articleScore
        rw [hs]
      rcases hok q hs with ⟨n, t, h3, h4⟩
      rw [h2]
      exact hrange n t q h3 h4

/-- C2 witness: the amended bounds at an oracle answering `7.5`, and the
zero default at an oracle failing non-transiently. -/
theorem C2_score_amended_witness :
    (0 ≤ articleScore (fun _ => Except.ok "7.5") ∧
      articleScore (fun _ => Except.ok "7.5") ≤ 10) ∧
    articleScore (fun _ => Except.error "down") = 0 := by
  constructor
  · refine (C2_score_amended (fun _ => Except.ok "7.5")).2.2 ?_
    intro n t q h1 h2
    have ht : t = "7.5" := (Except.ok.inj h1).symm
    rw [ht] at h2
    have hv : parseGoFloat (goTrim "7.5") = some (mkRat 75 10) := by decide
    rw [hv] at h2
    have hq : q = mkRat 75 10 := (Option.some.inj h2).symm
    rw [hq]
    exact ⟨by decide, by decide⟩
  · exact (C2_score_amended (fun _ => Except.error "down")).1
      "failed to score article: down" (by decide)

/-- The exponential backoff schedule: the sleeps `2^0, ..., 2^(k-1)`
seconds performed before retry attempts `1..k`. -/
def backoffList (k : Nat) : List Nat := (List.range k).map fun i => 2 ^ i

/-- The error carried into attempt `k`: the error of the previous attempt,
or the seed before any attempt. -/
def lastErrAt (e : Nat → String) : Nat → String
  | 0 => ""
  | k + 1 => e k

/-- Gluing one more backoff onto the schedule. -/
theorem backoffList_concat (k : Nat) :
    backoffList (k - 1) ++ (if k = 0 then [] else [2 ^ (k - 1)]) =
      backoffList k := by
  cases k with
  | zero => simp [backoffList]
  | succ n => simp [backoffList, List.range_succ]

/-- Unfolding one transient-failure step of the retry loop. -/
theorem retryLoop_step_transient {α : Type} (fn : Nat → Except String α)
    (m attempt : Nat) (lastErr eNow : String)
    (hf : fn attempt = Except.error eNow)
    (ht : isRateLimitError eNow = true) :
    retryLoop fn (m + 1) attempt lastErr =
      ((retryLoop fn m (attempt + 1) eNow).1,
        (if attempt = 0 then [] else [2 ^ (attempt - 1)]) ++
          (retryLoop fn m (attempt + 1) eNow).2) := by
  simp only [retryLoop, hf, ht, if_true]

/-- Unfolding one non-transient-failure step of the retry loop: the error
is returned as is. -/
theorem retryLoop_step_fatal {α : Type} (fn : Nat → Except String α)
    (m attempt : Nat) (lastErr eNow : String)
    (hf : fn attempt = Except.error eNow)
    (ht : isRateLimitError eNow = false) :
    retryLoop fn (m + 1) attempt lastErr =
      (Except.error eNow,
        if attempt = 0 then [] else [2 ^ (attempt - 1)]) := by
  simp only [retryLoop, hf, ht, Bool.false_eq_true, if_false]

/-- Unfolding one successful step of the retry loop. -/
theorem retryLoop_step_ok {α : Type} (fn : Nat → Except String α)
    (m attempt : Nat) (lastErr : String) (v : α)
    (hf : fn attempt = Except.ok v) :
    retryLoop fn (m + 1) attempt lastErr =
      (Except.ok v, if attempt = 0 then [] else [2 ^ (attempt - 1)]) := by
  simp only [retryLoop, hf]

/-- Unrolling the first `k` attempts of `retryWithBackoff` when they all
fail transiently: the loop is at attempt `k` carrying the last error, with
the backoffs before attempts `1..k-1` already slept. -/
theorem retry_transient_unroll {α : Type} (maxR : Nat)
    (fn : Nat → Except String α) (e : Nat → String) :
    ∀ k, k ≤ maxR + 1 →
      (∀ i, i < k → fn i = Except.error (e i) ∧ isRateLimitError (e i) = true) →
      retryWithBackoff maxR fn =
        ((retryLoop fn (maxR + 1 - k) k (lastErrAt e k)).1,
          backoffList (k - 1) ++
            (retryLoop fn (maxR + 1 - k) k (lastErrAt e k)).2) := by
  intro k
  induction k with
  | zero =>
    intro _ _
    simp [retryWithBackoff, backoffList, lastErrAt]
  | succ n ih =>
    intro hk hfail
    have h1 := ih (by omega) (fun i hi => hfail i (by omega))
    have h2 : maxR + 1 - n = (maxR - n) + 1 := by omega
    rcases hfail n (by omega) with ⟨hfn, htn⟩
    rw [h2, retryLoop_step_transient fn (maxR - n) n (lastErrAt e n) (e n)
      hfn htn] at h1
    have h4 : maxR + 1 - (n + 1) = maxR - n := by omega
    rw [h1, h4]
    show (_, backoffList (n - 1) ++
        ((if n = 0 then [] else [2 ^ (n - 1)]) ++ _)) = _
    rw [← List.append_assoc, backoffList_concat n]
    rfl

/-- C6: the retry loop shared by all oracle calls: (a) when the first `j`
attempts fail transiently and attempt `j+1` fails **non-transiently**, the
error is returned immediately, with only the `j` earlier backoffs slept;
(b) when the first `k ≤ 5` attempts fail transiently, the loop has slept
exactly `1, 2, ..., 2^(k-1)` seconds, each before the following retry;
(c) when all 6 attempts (the initial call plus 5 retries) fail transiently
the loop returns the last error, wrapped as `max retries exceeded`;
(d) a call failing twice with `429` and succeeding on the third attempt
returns the success after exactly the two backoff sleeps 1 and 2. -/
theorem C6_retry_backoff_policy :
    (∀ (fn : Nat → Except String String) (e : Nat → String) (j : Nat)
        (ej : String),
      j ≤ 5 →
      (∀ i, i < j → fn i = Except.error (e i) ∧ isRateLimitError (e i) = true) →
      fn j = Except.error ej → isRateLimitError ej = false →
      retryWithBackoff 5 fn = (Except.error ej, backoffList j)) ∧
    (∀ (fn : Nat → Except String String) (e : Nat → String) (k : Nat),
      1 ≤ k → k ≤ 5 →
      (∀ i, i < k → fn i = Except.error (e i) ∧ isRateLimitError (e i) = true) →
      ∃ tail, (retryWithBackoff 5 fn).2 = backoffList k ++ tail) ∧
    (∀ (fn : Nat → Except String String) (e : Nat → String),
      (∀ i, i ≤ 5 → fn i = Except.error (e i) ∧ isRateLimitError (e i) = true) →
      (retryWithBackoff 5 fn).1 =
        Except.error ("max retries exceeded: " ++ e 5)) ∧
    retryWithBackoff 5
        (fun i => if i < 2 then Except.error "429" else Except.ok "7.5") =
      (Except.ok "7.5", [1, 2]) := by
  refine ⟨?_, ?_, ?_, by decide⟩
  · intro fn e j ej hj hfail hfj htj
    have h1 := retry_transient_unroll 5 fn e j (by omega) hfail
    have h2 : 5 + 1 - j = (5 - j) + 1 := by omega
    rw [h2, retryLoop_step_fatal fn (5 - j) j (lastErrAt e j) ej hfj htj] at h1
    rw [h1]
    show (_, backoffList (j - 1) ++ (if j = 0 then [] else [2 ^ (j - 1)])) = _
    rw [backoffList_concat j]
  · intro fn e k hk1 hk5 hfail
    have h1 := retry_transient_unroll 5 fn e k (by omega) hfail
    have h2 : 5 + 1 - k = (5 - k) + 1 := by omega
    rw [h2] at h1
    rcases hfk : fn k with ek | vk
    · cases htb : isRateLimitError ek with
      | false =>
        rw [retryLoop_step_fatal fn (5 - k) k (lastErrAt e k) ek hfk htb] at h1
        refine ⟨[], ?_⟩
        rw [h1, List.append_nil]
        show backoffList (k - 1) ++ (if k = 0 then [] else [2 ^ (k - 1)]) = _
        rw [backoffList_concat k]
      | true =>
        rw [retryLoop_step_transient fn (5 - k) k (lastErrAt e k) ek hfk htb]
          at h1
        refine ⟨(retryLoop fn (5 - k) (k + 1) ek).2, ?_⟩
        rw [h1]
        show backoffList (k - 1) ++
          ((if k = 0 then [] else [2 ^ (k - 1)]) ++ _) = _
        rw [← List.append_assoc, backoffList_concat k]
    · rw [retryLoop_step_ok fn (5 - k) k (lastErrAt e k) vk hfk] at h1
      refine ⟨[], ?_⟩
      rw [h1, List.append_nil]
      show backoffList (k - 1) ++ (if k = 0 then [] else [2 ^ (k - 1)]) = _
      rw [backoffList_concat k]
  · intro fn e hfail
    have h1 := retry_transient_unroll 5 fn e 6 (by omega)
      (fun i hi => hfail i (by omega))
    rw [h1]
    rfl

/-- C6 witness: concrete runs of the three quantified clauses: immediate
return with no sleeps on a non-transient first failure, the exact backoff
prefix after two transient failures, and exhaustion after six transient
failures. -/
theorem C6_retry_backoff_witness :
    retryWithBackoff 5
        (fun _ => (Except.error "bad request" : Except String String)) =
      (Except.error "bad request", backoffList 0) ∧
    (∃ tail, (retryWithBackoff 5
        (fun i => if i < 2 then Except.error "429" else Except.ok "done")).2 =
      backoffList 2 ++ tail) ∧
    (retryWithBackoff 5
        (fun _ => (Except.error "RESOURCE_EXHAUSTED" :
          Except String String))).1 =
      Except.error ("max retries exceeded: " ++ "RESOURCE_EXHAUSTED") := by
  refine ⟨?_, ?_, ?_⟩
  · exact C6_retry_backoff_policy.1
      (fun _ => Except.error "bad request") (fun _ => "") 0 "bad request"
      (by omega) (fun i hi => absurd hi (by omega)) rfl (by decide)
  · exact C6_retry_backoff_policy.2.1
      (fun i => if i < 2 then Except.error "429" else Except.ok "done")
      (fun _ => "429") 2 (by omega) (by omega)
      (fun i hi =>
        ⟨by simp [hi], show isRateLimitError "429" = true by decide⟩)
  · exact C6_retry_backoff_policy.2.2.1
      (fun _ => Except.error "RESOURCE_EXHAUSTED")
      (fun _ => "RESOURCE_EXHAUSTED")
      (fun i _ =>
        ⟨rfl, show isRateLimitError "RESOURCE_EXHAUSTED" = true by decide⟩)

end ThePaper
